import Mathlib

/-!
Shallow embedding of the two example notebooks of this repository
(`docs/examples/instance_segmentation.ipynb`, given as `src/unnamed/part_000`,
and `docs/examples/building_detection_lidar.ipynb`).  Each notebook is a
linear script of calls into the external `geoai` library; we embed each
code cell as a list of statements of a small imperative language and run
them with an executable interpreter.  The `geoai` library itself is not
part of this repository's sources, so its visible behaviour (return values
and files written) is modelled from the specification where a claim needs
it; everything else about the library stays opaque.

Encoding conventions, chosen so that every cell maps line by line onto the
source: an f-string of the form `f"dir/name"` and a `pathlib` join
`Path(dir) / "name"` are both `Expr.joinPath`; a nested Python dict literal
is flattened to dotted keys (`"style.color"`); a Python expression that the
notebooks only ever pass to `print` (generator sums, attribute chains) is
kept as the opaque `Expr.py` with its source text.
-/

set_option maxHeartbeats 4000000
set_option maxRecDepth 100000

namespace GeoaiNb

/-- Expressions occurring in the notebook cells: string, integer, decimal
and boolean literals, `None`, variable references, path joins, `str(...)`,
two-element tuples and lists, flat dictionary literals, and opaque Python
expressions (only ever printed). Decimal literals keep their source token
so no floating-point arithmetic is modelled. -/
inductive Expr where
  | strLit : String → Expr
  | intLit : Int → Expr
  | decLit : String → Expr
  | boolLit : Bool → Expr
  | pyNone : Expr
  | var : String → Expr
  | joinPath : Expr → String → Expr
  | strOf : Expr → Expr
  | tuple2 : Expr → Expr → Expr
  | list2 : Expr → Expr → Expr
  | kvDict : List (String × String) → Expr
  | py : String → Expr
deriving Repr

/-- Runtime values of the embedded notebooks.  Results of opaque library
calls are `res`; the result of a pandas boolean-mask selection is
`filtered`; `pyVal` is the value of an opaque printed expression. -/
inductive Value where
  | s : String → Value
  | i : Int → Value
  | dec : String → Value
  | b : Bool → Value
  | vnone : Value
  | pair : Value → Value → Value
  | vlist : List Value → Value
  | vdict : List (String × Value) → Value
  | kv : List (String × String) → Value
  | filtered : String → Int → Value → Value
  | res : String → List Value → Value
  | pyVal : String → Value
deriving Repr

/-- The string content of a value, when it is a string. -/
def Value.asStr : Value → Option String
  | .s t => some t
  | _ => none

/-- Variable environment of a notebook run: an association list, newest
binding first, as Python rebinding shadows. -/
abbrev Env := List (String × Value)

/-- Look a variable up in the environment. -/
def Env.lookup (env : Env) (x : String) : Option Value :=
  match env with
  | [] => none
  | (y, v) :: r => if x = y then some v else Env.lookup r x

/-- Bind a variable (shadowing any earlier binding). -/
def Env.bind (env : Env) (x : String) (v : Value) : Env :=
  (x, v) :: env

/-- Evaluate an expression in an environment.  `str(...)` is the identity
on strings, as in Python when applied to a `Path` that we already keep as
its string; a path join appends a slash and the component. -/
def evalE (env : Env) : Expr → Value
  | .strLit t => .s t
  | .intLit n => .i n
  | .decLit t => .dec t
  | .boolLit x => .b x
  | .pyNone => .vnone
  | .var x => (env.lookup x).getD .vnone
  | .joinPath e name =>
    match evalE env e with
    | .s d => .s (d ++ "/" ++ name)
    | v => .res "join" [v, .s name]
  | .strOf e =>
    match evalE env e with
    | .s d => .s d
    | v => .res "str" [v]
  | .tuple2 e₁ e₂ => .pair (evalE env e₁) (evalE env e₂)
  | .list2 e₁ e₂ => .vlist [evalE env e₁, evalE env e₂]
  | .kvDict kvs => .kv kvs
  | .py t => .pyVal t

/-- Evaluate a list of positional arguments. -/
def evalArgs (env : Env) : List Expr → List Value
  | [] => []
  | e :: r => evalE env e :: evalArgs env r

/-- Evaluate a list of keyword arguments. -/
def evalKw (env : Env) : List (String × Expr) → List (String × Value)
  | [] => []
  | (k, e) :: r => (k, evalE env e) :: evalKw env r

/-- Look a keyword argument up in an evaluated keyword list. -/
def kwLookup (kw : List (String × Value)) (k : String) : Option Value :=
  match kw with
  | [] => none
  | (k₁, v) :: r => if k = k₁ then some v else kwLookup r k

/-- String content of a keyword argument, defaulting to the empty string. -/
def kwStr (kw : List (String × Value)) (k : String) : String :=
  ((kwLookup kw k).bind Value.asStr).getD ""

/-- Last slash-separated component of a URL or path. -/
def basename (u : String) : String :=
  u.toList.foldl (fun acc c => if c = '/' then "" else acc.push c) ""

/-- Slash-separated components of a path. -/
def splitSlash (p : String) : List String :=
  p.toList.foldr
    (fun c acc =>
      if c = '/' then "" :: acc
      else match acc with
        | [] => [String.push "" c]
        | h :: t => (String.push "" c ++ h) :: t)
    [""]

/-- Ancestor chain of a relative path, shortest first: for `a/b` this is
`[a, a/b]`. -/
def parentChain (p : String) : List String :=
  ((splitSlash p).foldl
    (fun acc c =>
      match acc with
      | [] => [c]
      | q :: r => (q ++ "/" ++ c) :: q :: r)
    []).reverse

/-- The modelled filesystem: the paths (directories and files) that the
run has created, in creation order. -/
abbrev FS := List String

/-- Add a path if it is not already present. -/
def insertPath (fs : FS) (p : String) : FS :=
  if p ∈ fs then fs else fs ++ [p]

/-- Modelled from Python's documented `pathlib.Path.mkdir` semantics (the
Python standard library is not part of this repository's sources): with
`exist_ok=True` an existing directory is not an error; with `parents=True`
every missing ancestor is created; with `parents=False` a missing parent
is `FileNotFoundError`. -/
def mkdirExc (parents existOk : Bool) (fs : FS) (p : String) : Except String FS :=
  if p ∈ fs then
    if existOk then .ok fs else .error "FileExistsError"
  else if parents then .ok ((parentChain p).foldl insertPath fs)
  else if ((parentChain p).dropLast).all (fun d => decide (d ∈ fs)) then
    .ok (insertPath fs p)
  else .error "FileNotFoundError"

/-- Total filesystem action of `mkdir(parents=True, exist_ok=True)`: the
success value of `mkdirExc true true`. -/
def mkdirPE (fs : FS) (p : String) : FS :=
  if p ∈ fs then fs else (parentChain p).foldl insertPath fs

/-- File name of the `k`-th exported tile. -/
def tileName (k : Nat) : String := "tile_" ++ toString k ++ ".tif"

/-- Modelled from the spec: the image/label tile pairs produced by
`export_geotiff_tiles`.  How many pairs there are depends on the raster's
extent, which is outside the sources, so it is a run parameter `n`; pair
`k` is written under `out/images` and `out/labels`. -/
def exportTilePairs (out : String) (n : Nat) : List Value :=
  (List.range n).map fun k =>
    .pair (.s (out ++ "/images/" ++ tileName k))
          (.s (out ++ "/labels/" ++ tileName k))

/-- Modelled from the spec: the return value of each `geoai` entry point
whose result the notebooks consume as data.  `download_file` fetches a
remote file by URL to a local path (the URL's basename, in the working
directory); `instance_segmentation` returns the output raster path plus
the elapsed inference time.  Every other entry point's result stays
opaque (`export_geotiff_tiles`'s returned tile collection, which the
notebooks only measure with `len`, has `exportTilePairs` as its
spec-modelled contents). -/
def libRet (f : String) (pos : List Value)
    (kw : List (String × Value)) : Value :=
  if f = "download_file" then
    .s (basename ((pos.head?.bind Value.asStr).getD ""))
  else if f = "instance_segmentation" then
    .pair (.s (kwStr kw "output_path")) (.pyVal "elapsed_time")
  else
    .res f pos

/-- Modelled from the spec: the files and directories each `geoai` entry
point persists.  Training persists a model checkpoint `best_model.pth` and
a training-history record `training_history.pth` under its output
directory; tile export creates the `images` and `labels` directory tree;
inference, band stacking and vectorization write their output files;
`download_file` saves the fetched file locally. -/
def libWrites (f : String) (pos : List Value)
    (kw : List (String × Value)) : List String :=
  if f = "download_file" then
    [basename ((pos.head?.bind Value.asStr).getD "")]
  else if f = "export_geotiff_tiles" then
    [kwStr kw "out_folder" ++ "/images", kwStr kw "out_folder" ++ "/labels"]
  else if f = "train_instance_segmentation_model" || f = "train_segmentation_model" then
    [kwStr kw "output_dir" ++ "/best_model.pth",
     kwStr kw "output_dir" ++ "/training_history.pth"]
  else if f = "instance_segmentation" || f = "semantic_segmentation" then
    [kwStr kw "output_path"]
  else if f = "stack_bands" then
    [kwStr kw "output_file"]
  else if f = "orthogonalize" then
    [((pos.drop 1).head?.bind Value.asStr).getD ""]
  else []

/-- A recorded library call: the `geoai` function invoked, its evaluated
positional and keyword arguments, and the value it returned. -/
structure Event where
  fname : String
  pos : List Value
  kw : List (String × Value)
  ret : Value

/-- State of a notebook run: the variable environment, the modelled
filesystem, and the trace of library calls so far. -/
structure ExecSt where
  env : Env
  fs : FS
  trace : List Event

/-- Statements of the embedded notebook language, one per source line of
the code cells: plain and dict assignment, bare / bound / `**config`
library calls (`starCall2` is tuple destructuring of a `**config` call),
`print`, `Path.mkdir` on a path-valued variable, the `os.path.exists`
conditional, a `for`-loop over a dict's items, pandas boolean-mask
selection on a column, and an `os.environ` assignment.  `bindVal` is the
interpreter's internal binding of a loop variable to a runtime value. -/
inductive Stmt where
  | assign (x : String) (e : Expr)
  | dictAssign (x : String) (entries : List (String × Expr))
  | exprCall (f : String) (pos : List Expr) (kw : List (String × Expr))
  | bindCall (x : String) (f : String) (pos : List Expr) (kw : List (String × Expr))
  | starCall (f : String) (cfg : String)
  | starCall2 (x y : String) (f : String) (cfg : String)
  | printStmt (parts : List Expr)
  | mkdirStmt (dirVar : String) (parents existOk : Bool)
  | ifExists (e : Expr) (thn els : List Stmt)
  | forItems (d : String) (body : List Stmt)
  | filterGt (x src col : String) (bound : Int)
  | setEnv (k v : String)
  | bindVal (x : String) (v : Value)

/-- Perform one library call: record the event and the modelled writes. -/
def doCall (st : ExecSt) (f : String) (pos : List Value)
    (kw : List (String × Value)) : Value × ExecSt :=
  let r := libRet f pos kw
  (r, { st with
        fs := (libWrites f pos kw).foldl insertPath st.fs,
        trace := st.trace ++ [⟨f, pos, kw, r⟩] })

/-- Execute a statement that contains no nested statements. -/
def stepSimple (st : ExecSt) : Stmt → ExecSt
  | .assign x e => { st with env := st.env.bind x (evalE st.env e) }
  | .dictAssign x entries =>
    { st with env := st.env.bind x (.vdict (evalKw st.env entries)) }
  | .exprCall f pos kw =>
    (doCall st f (evalArgs st.env pos) (evalKw st.env kw)).2
  | .bindCall x f pos kw =>
    let r := doCall st f (evalArgs st.env pos) (evalKw st.env kw)
    { r.2 with env := r.2.env.bind x r.1 }
  | .starCall f cfg =>
    let kw := match st.env.lookup cfg with | some (.vdict l) => l | _ => []
    (doCall st f [] kw).2
  | .starCall2 x y f cfg =>
    let kw := match st.env.lookup cfg with | some (.vdict l) => l | _ => []
    let r := doCall st f [] kw
    match r.1 with
    | .pair a b => { r.2 with env := (r.2.env.bind x a).bind y b }
    | v => { r.2 with env := (r.2.env.bind x v).bind y .vnone }
  | .printStmt _ => st
  | .mkdirStmt dv _ _ =>
    match (st.env.lookup dv).bind Value.asStr with
    | some p => { st with fs := mkdirPE st.fs p }
    | none => st
  | .filterGt x src col bound =>
    let v := (st.env.lookup src).getD .vnone
    { st with env := st.env.bind x (.filtered col bound v) }
  | .setEnv k v => { st with env := st.env.bind ("os.environ." ++ k) (.s v) }
  | .bindVal x v => { st with env := st.env.bind x v }
  | .ifExists _ _ _ => st
  | .forItems _ _ => st

/-- Expand a `for key, value in d.items()` loop over concrete entries into
a flat statement list, one `bindVal` pair plus the body per entry. -/
def expandFor (body : List Stmt) : List (String × Value) → List Stmt
  | [] => []
  | (k, v) :: r => .bindVal "key" (.s k) :: .bindVal "value" v :: body ++ expandFor body r

/-- Run a statement list.  `ex` is the answer the ambient filesystem gives
the `os.path.exists` check (the real filesystem at run time is outside the
model; the notebooks contain exactly one such check, so one answer
suffices).  Control statements are flattened into the continuation: the
conditional continues with the branch `ex` selects, a `for`-loop over a
dict continues with its expansion.  Fuel (structural, so every run is a
kernel-computable function of the program) bounds the number of steps;
every notebook below runs to completion well within the fuel the wrappers
pass. -/
def run (ex : Bool) : Nat → ExecSt → List Stmt → ExecSt
  | 0, st, _ => st
  | _, st, [] => st
  | fuel + 1, st, .ifExists _ thn els :: cs =>
    run ex fuel st ((if ex then thn else els) ++ cs)
  | fuel + 1, st, .forItems dv body :: cs =>
    let entries := match st.env.lookup dv with | some (.vdict l) => l | _ => []
    run ex fuel st (expandFor body entries ++ cs)
  | fuel + 1, st, c :: cs => run ex fuel (stepSimple st c) cs

/-- Run a notebook from an empty environment and filesystem. -/
def runNb (nb : List Stmt) (ex : Bool) : ExecSt :=
  run ex 1000 ⟨[], [], []⟩ nb

/-- Trace of library calls of a notebook run. -/
def execTrace (nb : List Stmt) (ex : Bool) : List Event :=
  (runNb nb ex).trace

/-- Function names of a trace, in call order. -/
def callNames (t : List Event) : List String := t.map Event.fname

/-- Final value of a variable after a notebook run. -/
def envAfter (nb : List Stmt) (ex : Bool) (x : String) : Option Value :=
  (runNb nb ex).env.lookup x

/-- Final modelled filesystem after a notebook run. -/
def fsAfter (nb : List Stmt) (ex : Bool) : FS :=
  (runNb nb ex).fs

/-- Setup cell of the instance segmentation notebook
(`src/unnamed/part_000`, lines 87-102): device query, working paths, and
the two `mkdir(parents=True, exist_ok=True)` calls. -/
def instSetup : List Stmt := [
  .bindCall "device" "get_device" [] [],
  .printStmt [.var "device"],
  .assign "out_folder" (.strLit "instance_segmentation_buildings"),
  .assign "models_dir" (.joinPath (.var "out_folder") "models"),
  .assign "output_dir" (.joinPath (.var "out_folder") "output"),
  .mkdirStmt "models_dir" true true,
  .mkdirStmt "output_dir" true true,
  .printStmt [.var "out_folder"],
  .printStmt [.var "models_dir"],
  .printStmt [.var "output_dir"]]

/-- Dataset URL cell of the instance segmentation notebook (lines 120-126). -/
def instUrls : List Stmt := [
  .assign "train_raster_url"
    (.strLit "https://huggingface.co/datasets/giswqs/geospatial/resolve/main/naip_rgb_train.tif"),
  .assign "train_vector_url"
    (.strLit "https://huggingface.co/datasets/giswqs/geospatial/resolve/main/naip_train_buildings.geojson"),
  .assign "test_raster_url"
    (.strLit "https://huggingface.co/datasets/giswqs/geospatial/resolve/main/naip_test.tif")]

/-- Download cell of the instance segmentation notebook (lines 135-141). -/
def instDownload : List Stmt := [
  .bindCall "train_raster_path" "download_file" [.var "train_raster_url"] [],
  .bindCall "train_vector_path" "download_file" [.var "train_vector_url"] [],
  .bindCall "test_raster_path" "download_file" [.var "test_raster_url"] [],
  .printStmt [.var "train_raster_path"],
  .printStmt [.var "train_vector_path"],
  .printStmt [.var "test_raster_path"]]

/-- Sample-data visualization cells of the instance segmentation notebook
(lines 157-175). -/
def instInspect : List Stmt := [
  .exprCall "get_raster_info" [.var "train_raster_path"] [],
  .exprCall "view_vector_interactive" [.var "train_vector_path"]
    [("tiles", .var "train_raster_url")],
  .exprCall "view_raster" [.var "test_raster_url"] []]

/-- Training-tile export cell of the instance segmentation notebook
(lines 193-205). -/
def instTiles : List Stmt := [
  .bindCall "tiles" "export_geotiff_tiles" []
    [("in_raster", .var "train_raster_path"),
     ("out_folder", .var "out_folder"),
     ("in_class_data", .var "train_vector_path"),
     ("tile_size", .intLit 512),
     ("stride", .intLit 256),
     ("buffer_radius", .intLit 0)],
  .printStmt [.py "len(tiles)"],
  .printStmt [.var "out_folder"],
  .printStmt [.var "out_folder"]]

/-- Model creation cell of the instance segmentation notebook
(lines 223-232). -/
def instModel : List Stmt := [
  .bindCall "model" "get_instance_segmentation_model" []
    [("num_classes", .intLit 2),
     ("num_channels", .intLit 3),
     ("pretrained", .boolLit true)],
  .printStmt [.py "sum(p.numel() for p in model.parameters())"],
  .printStmt [.py "next(model.parameters()).device"],
  .printStmt [.py "type(model)"]]

/-- Training-configuration cell of the instance segmentation notebook
(lines 250-268), including the `for key, value in training_config.items()`
print loop. -/
def instTrainConfig : List Stmt := [
  .dictAssign "training_config"
    [("images_dir", .joinPath (.var "out_folder") "images"),
     ("labels_dir", .joinPath (.var "out_folder") "labels"),
     ("output_dir", .strOf (.var "models_dir")),
     ("num_classes", .intLit 2),
     ("num_channels", .intLit 3),
     ("batch_size", .intLit 2),
     ("num_epochs", .intLit 20),
     ("learning_rate", .decLit "0.005"),
     ("val_split", .decLit "0.2"),
     ("visualize", .boolLit true),
     ("device", .var "device"),
     ("verbose", .boolLit true)],
  .printStmt [],
  .forItems "training_config" [.printStmt [.var "key", .var "value"]]]

/-- Training cell of the instance segmentation notebook (lines 277-280). -/
def instTrain : List Stmt := [
  .printStmt [],
  .starCall "train_instance_segmentation_model" "training_config",
  .printStmt []]

/-- Performance-metrics cell of the instance segmentation notebook
(lines 289-293). -/
def instMetrics : List Stmt := [
  .exprCall "plot_performance_metrics" []
    [("history_path", .strOf (.joinPath (.var "models_dir") "training_history.pth")),
     ("figsize", .tuple2 (.intLit 15) (.intLit 5)),
     ("verbose", .boolLit true)]]

/-- Model-existence check cell of the instance segmentation notebook
(lines 311-320): the notebooks' only `if` statement; each branch only
prints a message. -/
def instModelCheck : List Stmt := [
  .assign "model_path" (.strOf (.joinPath (.var "models_dir") "best_model.pth")),
  .assign "output_path" (.strOf (.joinPath (.var "output_dir") "instance_segmentation_result.tif")),
  .ifExists (.var "model_path")
    [.printStmt [.var "model_path"]]
    [.printStmt [.var "model_path"], .printStmt []]]

/-- Inference cell of the instance segmentation notebook (lines 329-345):
the `inference_config` dict and the destructured
`result_path, inference_time = geoai.instance_segmentation(**inference_config)`. -/
def instInference : List Stmt := [
  .dictAssign "inference_config"
    [("input_path", .var "test_raster_path"),
     ("output_path", .var "output_path"),
     ("model_path", .var "model_path"),
     ("window_size", .intLit 512),
     ("overlap", .intLit 128),
     ("confidence_threshold", .decLit "0.5"),
     ("batch_size", .intLit 2),
     ("num_channels", .intLit 3),
     ("num_classes", .intLit 2),
     ("device", .var "device")],
  .printStmt [],
  .starCall2 "result_path" "inference_time" "instance_segmentation" "inference_config",
  .printStmt [.var "inference_time"]]

/-- Result-raster view cell of the instance segmentation notebook
(lines 354-356). -/
def instViewResult : List Stmt := [
  .exprCall "view_raster" [.var "output_path"]
    [("nodata", .intLit 0),
     ("colormap", .strLit "tab20"),
     ("opacity", .decLit "0.7"),
     ("basemap", .var "test_raster_url")]]

/-- Vectorization cell of the instance segmentation notebook
(lines 381-382). -/
def instVectorize : List Stmt := [
  .assign "output_vector_path" (.strLit "building_predictions.geojson"),
  .bindCall "gdf" "orthogonalize" [.var "output_path", .var "output_vector_path"]
    [("epsilon", .intLit 2)]]

/-- Geometric-properties cell of the instance segmentation notebook
(line 392). -/
def instProps : List Stmt := [
  .bindCall "gdf_props" "add_geometric_properties" [.var "gdf"]
    [("area_unit", .strLit "m2"), ("length_unit", .strLit "m")]]

/-- Property-view cell of the instance segmentation notebook (line 402). -/
def instViewProps : List Stmt := [
  .exprCall "view_vector_interactive" [.var "gdf_props"]
    [("column", .strLit "area_m2"), ("tiles", .var "test_raster_url")]]

/-- Area-filter cell of the instance segmentation notebook (lines 411-415):
pandas boolean-mask selection of buildings with `area_m2` over 50. -/
def instFilter : List Stmt := [
  .filterGt "gdf_filtered" "gdf_props" "area_m2" 50,
  .printStmt [.py "len(gdf_filtered)"],
  .exprCall "view_vector_interactive" [.var "gdf_filtered"]
    [("column", .strLit "area_m2"), ("tiles", .var "test_raster_url")]]

/-- Split-map cell of the instance segmentation notebook (lines 425-430). -/
def instSplitMap : List Stmt := [
  .exprCall "create_split_map" []
    [("left_layer", .var "gdf_filtered"),
     ("right_layer", .var "test_raster_url"),
     ("left_args", .kvDict [("style.color", "red"), ("style.fillOpacity", "0.3")]),
     ("basemap", .var "test_raster_url")]]

/-- The instance segmentation notebook (`src/unnamed/part_000`), code cells
in order. -/
def instanceNb : List Stmt :=
  instSetup ++ instUrls ++ instDownload ++ instInspect ++ instTiles ++
  instModel ++ instTrainConfig ++ instTrain ++ instMetrics ++
  instModelCheck ++ instInference ++ instViewResult ++ instVectorize ++
  instProps ++ instViewProps ++ instFilter ++ instSplitMap

/-- Dataset URL cell of the lidar notebook
(`docs/examples/building_detection_lidar.ipynb`, cell 5). -/
def lidarUrls : List Stmt := [
  .assign "train_aerial_url"
    (.strLit "https://huggingface.co/datasets/giswqs/geospatial/resolve/main/las_vegas_train_naip.tif"),
  .assign "train_LiDAR_url"
    (.strLit "https://huggingface.co/datasets/giswqs/geospatial/resolve/main/las_vegas_train_hag.tif"),
  .assign "train_building_url"
    (.strLit "https://huggingface.co/datasets/giswqs/geospatial/resolve/main/las_vegas_buildings_train.geojson"),
  .assign "test_aerial_url"
    (.strLit "https://huggingface.co/datasets/giswqs/geospatial/resolve/main/las_vegas_test_naip.tif"),
  .assign "test_LiDAR_url"
    (.strLit "https://huggingface.co/datasets/giswqs/geospatial/resolve/main/las_vegas_test_hag.tif")]

/-- Download cell of the lidar notebook (cell 6). -/
def lidarDownload : List Stmt := [
  .bindCall "train_aerial_path" "download_file" [.var "train_aerial_url"] [],
  .bindCall "train_LiDAR_path" "download_file" [.var "train_LiDAR_url"] [],
  .bindCall "train_building_path" "download_file" [.var "train_building_url"] [],
  .bindCall "test_aerial_path" "download_file" [.var "test_aerial_url"] [],
  .bindCall "test_LiDAR_path" "download_file" [.var "test_LiDAR_url"] []]

/-- Sample-data visualization cells of the lidar notebook (cells 8-11). -/
def lidarView : List Stmt := [
  .setEnv "TITILER_ENDPOINT" "https://titiler.xyz",
  .exprCall "view_vector_interactive" [.var "train_building_path"]
    [("tiles", .var "train_aerial_url")],
  .exprCall "view_vector_interactive" [.var "train_building_path"]
    [("tiles", .var "train_LiDAR_url")]]

/-- Band-stacking cells of the lidar notebook (cells 13-14): the NAIP and
HAG rasters are stacked into single local files. -/
def lidarStack : List Stmt := [
  .assign "train_raster_path" (.strLit "las_vegas_train_naip_hag.tif"),
  .exprCall "stack_bands" []
    [("input_files", .list2 (.var "train_aerial_path") (.var "train_LiDAR_path")),
     ("output_file", .var "train_raster_path"),
     ("resolution", .pyNone),
     ("overwrite", .boolLit true),
     ("dtype", .strLit "Byte")],
  .assign "test_raster_path" (.strLit "las_vegas_test_naip_hag.tif"),
  .exprCall "stack_bands" []
    [("input_files", .list2 (.var "test_aerial_path") (.var "test_LiDAR_path")),
     ("output_file", .var "test_raster_path"),
     ("resolution", .pyNone),
     ("overwrite", .boolLit true),
     ("dtype", .strLit "Byte")]]

/-- Training-tile export cell of the lidar notebook (cell 16). -/
def lidarTiles : List Stmt := [
  .assign "out_folder" (.strLit "buildings"),
  .bindCall "tiles" "export_geotiff_tiles" []
    [("in_raster", .var "train_raster_path"),
     ("out_folder", .var "out_folder"),
     ("in_class_data", .var "train_building_path"),
     ("tile_size", .intLit 512),
     ("stride", .intLit 256),
     ("buffer_radius", .intLit 0)]]

/-- Training cell of the lidar notebook (cell 18): U-Net semantic
segmentation training. -/
def lidarTrain : List Stmt := [
  .exprCall "train_segmentation_model" []
    [("images_dir", .joinPath (.var "out_folder") "images"),
     ("labels_dir", .joinPath (.var "out_folder") "labels"),
     ("output_dir", .joinPath (.var "out_folder") "unet_models"),
     ("architecture", .strLit "unet"),
     ("encoder_name", .strLit "resnet34"),
     ("encoder_weights", .strLit "imagenet"),
     ("num_channels", .intLit 5),
     ("num_classes", .intLit 2),
     ("batch_size", .intLit 8),
     ("num_epochs", .intLit 50),
     ("learning_rate", .decLit "0.001"),
     ("val_split", .decLit "0.2"),
     ("verbose", .boolLit true)]]

/-- Performance-metrics cell of the lidar notebook (cell 20). -/
def lidarMetrics : List Stmt := [
  .exprCall "plot_performance_metrics" []
    [("history_path",
      .joinPath (.joinPath (.var "out_folder") "unet_models") "training_history.pth"),
     ("figsize", .tuple2 (.intLit 15) (.intLit 5)),
     ("verbose", .boolLit true)]]

/-- Path-definition cell of the lidar notebook (cell 22). -/
def lidarPaths : List Stmt := [
  .assign "masks_path" (.strLit "building_masks.tif"),
  .assign "model_path"
    (.joinPath (.joinPath (.var "out_folder") "unet_models") "best_model.pth")]

/-- Inference cell of the lidar notebook (cell 23). -/
def lidarInference : List Stmt := [
  .exprCall "semantic_segmentation" []
    [("input_path", .var "test_raster_path"),
     ("output_path", .var "masks_path"),
     ("model_path", .var "model_path"),
     ("architecture", .strLit "unet"),
     ("encoder_name", .strLit "resnet34"),
     ("num_channels", .intLit 5),
     ("num_classes", .intLit 2),
     ("window_size", .intLit 512),
     ("overlap", .intLit 256),
     ("batch_size", .intLit 8)]]

/-- Vectorization cell of the lidar notebook (cell 25). -/
def lidarVectorize : List Stmt := [
  .assign "output_vector_path" (.strLit "building_masks.geojson"),
  .bindCall "gdf" "orthogonalize" [.var "masks_path", .var "output_vector_path"]
    [("epsilon", .intLit 2)]]

/-- Geometric-properties cell of the lidar notebook (cell 27). -/
def lidarProps : List Stmt := [
  .bindCall "gdf_props" "add_geometric_properties" [.var "gdf"]
    [("area_unit", .strLit "m2"), ("length_unit", .strLit "m")],
  .printStmt [.py "len(gdf_props)"]]

/-- Result-view cells of the lidar notebook (cells 29-30). -/
def lidarViews : List Stmt := [
  .exprCall "view_raster" [.var "masks_path"]
    [("nodata", .intLit 0),
     ("basemap", .var "test_aerial_url"),
     ("backend", .strLit "ipyleaflet")],
  .exprCall "view_vector_interactive" [.var "gdf_props"]
    [("column", .strLit "area_m2"), ("tiles", .var "test_aerial_url")]]

/-- Area-filter cells of the lidar notebook (cells 31-32). -/
def lidarFilter : List Stmt := [
  .filterGt "gdf_filtered" "gdf_props" "area_m2" 50,
  .printStmt [.py "len(gdf_filtered)"],
  .exprCall "view_vector_interactive" [.var "gdf_filtered"]
    [("column", .strLit "area_m2"), ("tiles", .var "test_aerial_url")]]

/-- Split-map cell of the lidar notebook (cell 33). -/
def lidarSplitMap : List Stmt := [
  .exprCall "create_split_map" []
    [("left_layer", .var "gdf_filtered"),
     ("right_layer", .var "test_aerial_url"),
     ("left_args", .kvDict [("style.color", "red"), ("style.fillOpacity", "0.2")]),
     ("basemap", .var "test_aerial_url")]]

/-- The building-detection lidar notebook
(`docs/examples/building_detection_lidar.ipynb`), code cells in order. -/
def lidarNb : List Stmt :=
  lidarUrls ++ lidarDownload ++ lidarView ++ lidarStack ++ lidarTiles ++
  lidarTrain ++ lidarMetrics ++ lidarPaths ++ lidarInference ++
  lidarVectorize ++ lidarProps ++ lidarViews ++ lidarFilter ++ lidarSplitMap

/-- The `geoai` function a statement invokes, when it is a library call. -/
def callName? : Stmt → Option String
  | .exprCall f _ _ => some f
  | .bindCall _ f _ _ => some f
  | .starCall f _ => some f
  | .starCall2 _ _ f _ => some f
  | _ => none

/-- Is the statement a conditional branch. -/
def isIf : Stmt → Bool
  | .ifExists _ _ _ => true
  | _ => false

/-- Is the statement a loop. -/
def isFor : Stmt → Bool
  | .forItems _ _ => true
  | _ => false

/-- Is the statement a boolean-mask conditional selection. -/
def isFilter : Stmt → Bool
  | .filterGt _ _ _ _ => true
  | _ => false

/-- Is the statement a branch, loop, or conditional selection. -/
def isControl (s : Stmt) : Bool := isIf s || isFor s || isFilter s

/-- Is the statement a `print`. -/
def isPrint : Stmt → Bool
  | .printStmt _ => true
  | _ => false

/-- Direct sub-statements of a statement: the branches of an `if`, the
body of a `for`. -/
def subStmts : Stmt → List Stmt
  | .ifExists _ t e => t ++ e
  | .forItems _ b => b
  | _ => []

/-- The statements nested one level below the given ones. -/
def layer (nb : List Stmt) : List Stmt := (nb.map subStmts).flatten

/-- How many statements satisfy `p` within the first `d` nesting levels. -/
def countToDepth (p : Stmt → Bool) : Nat → List Stmt → Nat
  | 0, _ => 0
  | d + 1, nb => (nb.filter p).length + countToDepth p d (layer nb)

/-- Library calls named within the first `d` nesting levels, in source
order. -/
def callsToDepth : Nat → List Stmt → List String
  | 0, _ => []
  | d + 1, nb => nb.filterMap callName? ++ callsToDepth d (layer nb)

/-- All branches of the top-level `if` statements. -/
def ifBranches (nb : List Stmt) : List Stmt :=
  (nb.map fun s =>
    match s with
    | .ifExists _ t e => t ++ e
    | _ => []).flatten

/-- Is an expression a pure configuration value: a literal, a previously
bound variable, or a path join / `str` / tuple / list / dict of such —
never an opaque computed Python expression. -/
def Expr.isConfig : Expr → Bool
  | .py _ => false
  | .joinPath e _ => e.isConfig
  | .strOf e => e.isConfig
  | .tuple2 a b => a.isConfig && b.isConfig
  | .list2 a b => a.isConfig && b.isConfig
  | _ => true

/-- Does the statement supply only configuration values wherever it feeds
a library call: the arguments of direct calls and the values of the config
dicts passed on via `**config`. -/
def suppliesConfigOnly : Stmt → Bool
  | .exprCall _ pos kw =>
    pos.all Expr.isConfig && (kw.map Prod.snd).all Expr.isConfig
  | .bindCall _ _ pos kw =>
    pos.all Expr.isConfig && (kw.map Prod.snd).all Expr.isConfig
  | .dictAssign _ entries => (entries.map Prod.snd).all Expr.isConfig
  | _ => true

/-- Do all statements within the first `d` nesting levels satisfy `p`. -/
def allToDepth (p : Stmt → Bool) : Nat → List Stmt → Bool
  | 0, _ => true
  | d + 1, nb => nb.all p && allToDepth p d (layer nb)

/-- Index of the first element equal to `x` (the length if absent). -/
def idxOf : List String → String → Nat
  | [], _ => 0
  | s :: r, x => if s = x then 0 else idxOf r x + 1

/-- First recorded call of the named `geoai` function in a trace. -/
def findEvent (t : List Event) (f : String) : Option Event :=
  t.find? fun e => e.fname == f

/-- A keyword argument of the first recorded call of `f`. -/
def eventKw (t : List Event) (f k : String) : Option Value :=
  (findEvent t f).bind fun e => kwLookup e.kw k

/-- The return value of the first recorded call of `f`. -/
def eventRet (t : List Event) (f : String) : Option Value :=
  (findEvent t f).map Event.ret

/-- Is the first character list an initial segment of the second. -/
def listPref : List Char → List Char → Bool
  | [], _ => true
  | _ :: _, [] => false
  | c :: cr, d :: dr => c == d && listPref cr dr

/-- Does the character sequence of `p` begin the character sequence of
`s`. -/
def startsWithStr (p s : String) : Bool := listPref p.data s.data

/-- Is the string a remote URL rather than a local path. -/
def isUrl (s : String) : Bool := startsWithStr "https://" s

/-- The values a trace passes as training/inference data inputs: the
`in_raster` and `in_class_data` of `export_geotiff_tiles` and the
`input_path` of `instance_segmentation` / `semantic_segmentation`. -/
def dataArgPaths (e : Event) : List String :=
  if e.fname == "export_geotiff_tiles" then
    ((kwLookup e.kw "in_raster").bind Value.asStr).toList ++
      ((kwLookup e.kw "in_class_data").bind Value.asStr).toList
  else if e.fname == "instance_segmentation" || e.fname == "semantic_segmentation" then
    ((kwLookup e.kw "input_path").bind Value.asStr).toList
  else []

/-- All data-input values of a trace, in call order. -/
def dataArgs (t : List Event) : List String := (t.map dataArgPaths).flatten

/-- The local paths returned by the `download_file` calls of a trace. -/
def downloadReturns (t : List Event) : List String :=
  (t.map fun e =>
    if e.fname == "download_file" then e.ret.asStr.toList else []).flatten

/-- The `output_file` values of the `stack_bands` calls of a trace. -/
def stackOutputs (t : List Event) : List String :=
  (t.map fun e =>
    if e.fname == "stack_bands" then
      ((kwLookup e.kw "output_file").bind Value.asStr).toList
    else []).flatten

/-- Does the notebook contain the pandas selection
`x = src[src[col] > bound]`. -/
def hasFilterStmt (nb : List Stmt) (x src col : String) (bound : Int) : Bool :=
  nb.any fun s =>
    match s with
    | .filterGt x₁ src₁ col₁ b₁ => x₁ == x && src₁ == src && col₁ == col && b₁ == bound
    | _ => false

/-- Modelled from pandas' documented boolean-mask selection (pandas is not
part of this repository's sources): `df[df[col] > bound]` builds a new
frame keeping exactly the rows whose column entry exceeds the bound, and
leaves `df` itself untouched.  A row is its `area_m2` value (kept exact as
a rational) paired with the rest of its data. -/
def selectAreaGt (bound : ℚ) {α : Type} (gdf : List (ℚ × α)) : List (ℚ × α) :=
  gdf.filter fun r => bound < r.1

/-- The seven external-library operations the spec lists. -/
def sevenOps : List String :=
  ["export_geotiff_tiles", "train_instance_segmentation_model",
   "instance_segmentation", "orthogonalize", "add_geometric_properties",
   "view_vector_interactive", "create_split_map"]

/-- All sixteen `geoai` entry points the notebooks actually invoke: the
seven the spec lists, plus nine more. -/
def sixteenOps : List String :=
  sevenOps ++
    ["get_device", "download_file", "get_raster_info", "view_raster",
     "get_instance_segmentation_model", "plot_performance_metrics",
     "stack_bands", "train_segmentation_model", "semantic_segmentation"]

/-- Run a statement list from an empty environment on a given initial
filesystem. -/
def runOn (nb : List Stmt) (fs : FS) : ExecSt :=
  run false 1000 ⟨[], fs, []⟩ nb

/-- Does the notebook contain `xVar.mkdir(parents=..., exist_ok=...)`. -/
def hasMkdirStmt (nb : List Stmt) (x : String) (parents existOk : Bool) : Bool :=
  nb.any fun s =>
    match s with
    | .mkdirStmt y p e => y == x && p == parents && e == existOk
    | _ => false

/-- The `geoai` functions the instance segmentation notebook calls, in
source (and, the interpreter shows, execution) order. -/
def instCallList : List String :=
  ["get_device", "download_file", "download_file", "download_file",
   "get_raster_info", "view_vector_interactive", "view_raster",
   "export_geotiff_tiles", "get_instance_segmentation_model",
   "train_instance_segmentation_model", "plot_performance_metrics",
   "instance_segmentation", "view_raster", "orthogonalize",
   "add_geometric_properties", "view_vector_interactive",
   "view_vector_interactive", "create_split_map"]

/-- The `geoai` functions the lidar notebook calls, in source (and
execution) order. -/
def lidarCallList : List String :=
  ["download_file", "download_file", "download_file", "download_file",
   "download_file", "view_vector_interactive", "view_vector_interactive",
   "stack_bands", "stack_bands", "export_geotiff_tiles",
   "train_segmentation_model", "plot_performance_metrics",
   "semantic_segmentation", "orthogonalize", "add_geometric_properties",
   "view_raster", "view_vector_interactive", "view_vector_interactive",
   "create_split_map"]

/-- The call trace of the instance segmentation notebook is the same for
either answer of the existence check: the one conditional guards only
prints. -/
theorem callNames_inst (ex : Bool) :
    callNames (execTrace instanceNb ex) = instCallList := by
  cases ex <;> rfl

/-- The call trace of the lidar notebook is likewise independent of the
existence answer (the notebook contains no check at all). -/
theorem callNames_lidar (ex : Bool) :
    callNames (execTrace lidarNb ex) = lidarCallList := by
  cases ex <;> rfl

/-- Inserting a path makes it present. -/
theorem mem_insertPath_self (fs : FS) (p : String) : p ∈ insertPath fs p := by
  by_cases h : p ∈ fs <;> simp [insertPath, h]

/-- Inserting a path keeps every present path present. -/
theorem mem_insertPath (fs : FS) (p q : String) (h : q ∈ fs) :
    q ∈ insertPath fs p := by
  by_cases hp : p ∈ fs <;> simp [insertPath, hp, h]

/-- Folding insertions keeps every present path present. -/
theorem mem_foldl_insertPath (l : List String) (fs : FS) (q : String)
    (h : q ∈ fs) : q ∈ l.foldl insertPath fs := by
  induction l generalizing fs with
  | nil => exact h
  | cons a t ih => exact ih _ (mem_insertPath _ _ _ h)

/-- `mkdir -p` keeps every present path present. -/
theorem mem_mkdirPE (fs : FS) (p q : String) (h : q ∈ fs) :
    q ∈ mkdirPE fs p := by
  by_cases hp : p ∈ fs
  · simpa [mkdirPE, hp]
  · simpa [mkdirPE, hp] using mem_foldl_insertPath _ _ _ h

/-- `mkdir -p` of a present directory changes nothing. -/
theorem mkdirPE_eq_of_mem (fs : FS) (p : String) (h : p ∈ fs) :
    mkdirPE fs p = fs := by
  simp [mkdirPE, h]

/-- After `mkdir -p` of the models directory it is present. -/
theorem mem_mkdirPE_models (fs : FS) :
    "instance_segmentation_buildings/models" ∈
      mkdirPE fs "instance_segmentation_buildings/models" := by
  by_cases h : ("instance_segmentation_buildings/models" : String) ∈ fs
  · simp [mkdirPE, h]
  · simp only [mkdirPE, h, if_false, if_neg]
    exact mem_insertPath_self (insertPath fs "instance_segmentation_buildings") _

/-- After `mkdir -p` of the output directory it is present. -/
theorem mem_mkdirPE_output (fs : FS) :
    "instance_segmentation_buildings/output" ∈
      mkdirPE fs "instance_segmentation_buildings/output" := by
  by_cases h : ("instance_segmentation_buildings/output" : String) ∈ fs
  · simp [mkdirPE, h]
  · simp only [mkdirPE, h, if_false, if_neg]
    exact mem_insertPath_self (insertPath fs "instance_segmentation_buildings") _

/-- With `parents=True, exist_ok=True`, `mkdir` succeeds on every
filesystem and its success value is the total action `mkdirPE`. -/
theorem mkdirExc_true_eq (fs : FS) (p : String) :
    mkdirExc true true fs p = .ok (mkdirPE fs p) := by
  by_cases h : p ∈ fs <;> simp [mkdirExc, mkdirPE, h]

/-- The collection of exported tile pairs has exactly one entry per
produced pair. -/
theorem exportTilePairs_length (out : String) (n : Nat) :
    (exportTilePairs out n).length = n := by
  simp [exportTilePairs]

/-- A prefixed character list passes `listPref`. -/
theorem listPref_append_self (a b : List Char) : listPref a (a ++ b) = true := by
  induction a with
  | nil => rfl
  | cons c t ih => simp [listPref, ih]

/-- A string starts with itself followed by anything. -/
theorem startsWith_append (x y : String) : startsWithStr x (x ++ y) = true := by
  simp [startsWithStr, String.data_append, listPref_append_self]

/-- Is a value an image/label tile pair filed under the given output
folder's `images` and `labels` directories. -/
def tileUnder (out : String) : Value → Bool
  | .pair (.s a) (.s b) =>
    startsWithStr (out ++ "/images/") a && startsWithStr (out ++ "/labels/") b
  | _ => false

/-- Every exported tile pair lives under `out/images` and `out/labels`. -/
theorem exportTilePairs_under (out : String) (n : Nat) :
    (exportTilePairs out n).all (tileUnder out) = true := by
  rw [List.all_eq_true]
  intro v hv
  obtain ⟨k, hk, rfl⟩ := List.mem_map.mp hv
  simp [tileUnder, startsWith_append]

/-- Are the given call names each present in the trace, with strictly
increasing first occurrences. -/
def pipelineOrdered (t : List String) : List String → Bool
  | [] => true
  | [x] => t.contains x
  | x :: y :: r =>
    t.contains x && decide (idxOf t x < idxOf t y) && pipelineOrdered t (y :: r)

/-- C1: across both notebooks there is exactly one conditional — the
`os.path.exists` check on the trained-model path in the instance
segmentation notebook, placed before the inference call; each of its
branches only prints a message; and for either answer of the check the
subsequent `geoai.instance_segmentation` call is made.  (The statement
grammar of the embedding has no exception construct because the notebooks
contain none.) -/
theorem claim_C1_single_existence_check :
    countToDepth isIf 2 instanceNb = 1 ∧
    countToDepth isIf 2 lidarNb = 0 ∧
    layer (layer instanceNb) = [] ∧
    layer (layer lidarNb) = [] ∧
    (ifBranches instanceNb).all isPrint = true ∧
    instanceNb.findIdx isIf <
      instanceNb.findIdx (fun s => callName? s == some "instance_segmentation") ∧
    ∀ ex : Bool, "instance_segmentation" ∈ callNames (execTrace instanceNb ex) := by
  refine ⟨rfl, rfl, rfl, rfl, rfl, by decide, ?_⟩
  intro ex
  cases ex <;> decide

/-- C2 counterexample: the claim says the notebooks contain no branch,
loop, or conditional selection of their own, but the instance segmentation
notebook contains three control-flow constructs (the existence check, the
config print loop, the area filter) and the lidar notebook one (the area
filter). -/
theorem claim_C2_counterexample :
    countToDepth isControl 2 instanceNb = 3 ∧
    countToDepth isControl 2 instanceNb ≠ 0 ∧
    countToDepth isControl 2 lidarNb = 1 := by
  refine ⟨rfl, by decide, rfl⟩

/-- C2 amended: the notebooks' only internal control flow is one `if` (the
model-existence check), one `for` loop (printing the training config) and
one boolean-mask selection in the instance segmentation notebook, and one
boolean-mask selection in the lidar notebook; no library call is nested
inside any of these, and the sequence of library calls made is the same on
every execution. -/
theorem claim_C2_amended :
    countToDepth isIf 2 instanceNb = 1 ∧
    countToDepth isFor 2 instanceNb = 1 ∧
    countToDepth isFilter 2 instanceNb = 1 ∧
    countToDepth isIf 2 lidarNb = 0 ∧
    countToDepth isFor 2 lidarNb = 0 ∧
    countToDepth isFilter 2 lidarNb = 1 ∧
    (layer instanceNb).filterMap callName? = [] ∧
    (layer lidarNb).filterMap callName? = [] ∧
    layer (layer instanceNb) = [] ∧
    layer (layer lidarNb) = [] ∧
    (∀ ex : Bool, callNames (execTrace instanceNb ex) = instCallList) ∧
    (∀ ex : Bool, callNames (execTrace lidarNb ex) = lidarCallList) :=
  ⟨rfl, rfl, rfl, rfl, rfl, rfl, rfl, rfl, rfl, rfl, callNames_inst, callNames_lidar⟩

/-- C3 counterexample: the lidar notebook invokes `geoai.stack_bands`,
which is not among the seven operations the claim lists. -/
theorem claim_C3_counterexample :
    "stack_bands" ∈ callsToDepth 2 lidarNb ∧ "stack_bands" ∉ sevenOps := by
  decide

/-- C3 amended: every external-library operation the notebooks invoke is
one of sixteen `geoai` functions — the seven the spec lists plus
`get_device`, `download_file`, `get_raster_info`, `view_raster`,
`get_instance_segmentation_model`, `plot_performance_metrics`,
`stack_bands`, `train_segmentation_model` and `semantic_segmentation` —
and each call (including the config dicts forwarded with `**`) supplies
only configuration values: literals, previously bound variables, and path
joins, `str`, tuples, lists or dicts of these, never a computed
expression. -/
theorem claim_C3_amended :
    callsToDepth 2 instanceNb = instCallList ∧
    callsToDepth 2 lidarNb = lidarCallList ∧
    (callsToDepth 2 instanceNb).all sixteenOps.contains = true ∧
    (callsToDepth 2 lidarNb).all sixteenOps.contains = true ∧
    allToDepth suppliesConfigOnly 2 instanceNb = true ∧
    allToDepth suppliesConfigOnly 2 lidarNb = true :=
  ⟨rfl, rfl, rfl, rfl, rfl, rfl⟩

/-- C4: in either notebook and on every execution, the pipeline calls
occur in the fixed order download → tile export → training → inference →
vectorization → geometric properties → final visualization.  The
interpreter is sequential — each statement runs only after the previous
call's event is complete — which is the notebooks' top-to-bottom
synchronous execution. -/
theorem claim_C4_pipeline_order (ex : Bool) :
    pipelineOrdered (callNames (execTrace instanceNb ex))
      ["download_file", "export_geotiff_tiles",
       "train_instance_segmentation_model", "instance_segmentation",
       "orthogonalize", "add_geometric_properties", "create_split_map"] = true ∧
    pipelineOrdered (callNames (execTrace lidarNb ex))
      ["download_file", "export_geotiff_tiles", "train_segmentation_model",
       "semantic_segmentation", "orthogonalize", "add_geometric_properties",
       "create_split_map"] = true := by
  cases ex <;> exact ⟨rfl, rfl⟩

/-- C5: the instance segmentation notebook's inference call receives the
downloaded test raster as `input_path`, the trained checkpoint as
`model_path`, `window_size` 512, `overlap` 128 and `confidence_threshold`
0.5, returns the output-raster-path / elapsed-time pair, and the notebook
destructures that pair into `result_path` and `inference_time`. -/
theorem claim_C5_inference_call (ex : Bool) :
    eventKw (execTrace instanceNb ex) "instance_segmentation" "window_size" =
      some (.i 512) ∧
    eventKw (execTrace instanceNb ex) "instance_segmentation" "overlap" =
      some (.i 128) ∧
    eventKw (execTrace instanceNb ex) "instance_segmentation" "confidence_threshold" =
      some (.dec "0.5") ∧
    eventKw (execTrace instanceNb ex) "instance_segmentation" "input_path" =
      some (.s "naip_test.tif") ∧
    eventKw (execTrace instanceNb ex) "instance_segmentation" "model_path" =
      some (.s "instance_segmentation_buildings/models/best_model.pth") ∧
    eventRet (execTrace instanceNb ex) "instance_segmentation" =
      some (.pair
        (.s "instance_segmentation_buildings/output/instance_segmentation_result.tif")
        (.pyVal "elapsed_time")) ∧
    envAfter instanceNb ex "result_path" =
      some (.s "instance_segmentation_buildings/output/instance_segmentation_result.tif") ∧
    envAfter instanceNb ex "inference_time" = some (.pyVal "elapsed_time") := by
  cases ex <;> exact ⟨rfl, rfl, rfl, rfl, rfl, rfl, rfl, rfl⟩

/-- C6: both notebooks call `export_geotiff_tiles` with their raster and
vector class data, `tile_size` 512, `stride` 256 and `buffer_radius` 0,
bind the returned tile collection to `tiles`; in the spec model the
collection has exactly one entry per produced pair, every image tile lies
under `out_folder/images` and every label tile under `out_folder/labels`,
and both directory trees exist after the call. -/
theorem claim_C6_tile_export (ex : Bool) (out : String) (n : Nat) :
    eventKw (execTrace instanceNb ex) "export_geotiff_tiles" "tile_size" =
      some (.i 512) ∧
    eventKw (execTrace instanceNb ex) "export_geotiff_tiles" "stride" =
      some (.i 256) ∧
    eventKw (execTrace instanceNb ex) "export_geotiff_tiles" "buffer_radius" =
      some (.i 0) ∧
    eventKw (execTrace instanceNb ex) "export_geotiff_tiles" "in_raster" =
      some (.s "naip_rgb_train.tif") ∧
    eventKw (execTrace instanceNb ex) "export_geotiff_tiles" "in_class_data" =
      some (.s "naip_train_buildings.geojson") ∧
    eventKw (execTrace instanceNb ex) "export_geotiff_tiles" "out_folder" =
      some (.s "instance_segmentation_buildings") ∧
    eventKw (execTrace lidarNb ex) "export_geotiff_tiles" "tile_size" =
      some (.i 512) ∧
    eventKw (execTrace lidarNb ex) "export_geotiff_tiles" "stride" =
      some (.i 256) ∧
    eventKw (execTrace lidarNb ex) "export_geotiff_tiles" "buffer_radius" =
      some (.i 0) ∧
    eventKw (execTrace lidarNb ex) "export_geotiff_tiles" "in_raster" =
      some (.s "las_vegas_train_naip_hag.tif") ∧
    eventKw (execTrace lidarNb ex) "export_geotiff_tiles" "in_class_data" =
      some (.s "las_vegas_buildings_train.geojson") ∧
    eventKw (execTrace lidarNb ex) "export_geotiff_tiles" "out_folder" =
      some (.s "buildings") ∧
    envAfter instanceNb ex "tiles" = some (.res "export_geotiff_tiles" []) ∧
    envAfter lidarNb ex "tiles" = some (.res "export_geotiff_tiles" []) ∧
    (exportTilePairs out n).length = n ∧
    (exportTilePairs out n).all (tileUnder out) = true ∧
    "instance_segmentation_buildings/images" ∈ fsAfter instanceNb ex ∧
    "instance_segmentation_buildings/labels" ∈ fsAfter instanceNb ex ∧
    "buildings/images" ∈ fsAfter lidarNb ex ∧
    "buildings/labels" ∈ fsAfter lidarNb ex := by
  cases ex <;>
    exact ⟨rfl, rfl, rfl, rfl, rfl, rfl, rfl, rfl, rfl, rfl, rfl, rfl, rfl, rfl,
      exportTilePairs_length out n, exportTilePairs_under out n,
      by decide, by decide, by decide, by decide⟩

/-- C7: training with output directory `D` persists `D/best_model.pth` and
`D/training_history.pth` (first, generally, over the spec-modelled write
action of either training function on any filesystem), and those are
exactly the paths each notebook later passes to inference (`model_path`)
and to `plot_performance_metrics` (`history_path`), with the training call
itself receiving `D` as `output_dir`. -/
theorem claim_C7_training_artifacts :
    (∀ (fs : FS) (D : String),
      D ++ "/best_model.pth" ∈
        (libWrites "train_instance_segmentation_model" []
          [("output_dir", .s D)]).foldl insertPath fs ∧
      D ++ "/training_history.pth" ∈
        (libWrites "train_instance_segmentation_model" []
          [("output_dir", .s D)]).foldl insertPath fs ∧
      D ++ "/best_model.pth" ∈
        (libWrites "train_segmentation_model" []
          [("output_dir", .s D)]).foldl insertPath fs ∧
      D ++ "/training_history.pth" ∈
        (libWrites "train_segmentation_model" []
          [("output_dir", .s D)]).foldl insertPath fs) ∧
    ∀ ex : Bool,
      eventKw (execTrace instanceNb ex) "train_instance_segmentation_model" "output_dir" =
        some (.s "instance_segmentation_buildings/models") ∧
      eventKw (execTrace instanceNb ex) "plot_performance_metrics" "history_path" =
        some (.s "instance_segmentation_buildings/models/training_history.pth") ∧
      eventKw (execTrace instanceNb ex) "instance_segmentation" "model_path" =
        some (.s "instance_segmentation_buildings/models/best_model.pth") ∧
      "instance_segmentation_buildings/models/best_model.pth" ∈
        fsAfter instanceNb ex ∧
      "instance_segmentation_buildings/models/training_history.pth" ∈
        fsAfter instanceNb ex ∧
      eventKw (execTrace lidarNb ex) "train_segmentation_model" "output_dir" =
        some (.s "buildings/unet_models") ∧
      eventKw (execTrace lidarNb ex) "plot_performance_metrics" "history_path" =
        some (.s "buildings/unet_models/training_history.pth") ∧
      eventKw (execTrace lidarNb ex) "semantic_segmentation" "model_path" =
        some (.s "buildings/unet_models/best_model.pth") ∧
      "buildings/unet_models/best_model.pth" ∈ fsAfter lidarNb ex ∧
      "buildings/unet_models/training_history.pth" ∈ fsAfter lidarNb ex := by
  constructor
  · intro fs D
    exact ⟨mem_insertPath _ _ _ (mem_insertPath_self _ _),
      mem_insertPath_self _ _,
      mem_insertPath _ _ _ (mem_insertPath_self _ _),
      mem_insertPath_self _ _⟩
  · intro ex
    cases ex <;>
      exact ⟨rfl, rfl, rfl, by decide, by decide, rfl, rfl, rfl,
        by decide, by decide⟩

/-- C8 counterexample: in the lidar notebook the download of the training
aerial raster returns `las_vegas_train_naip.tif`, but that path is never
passed as `in_raster`, `in_class_data` or `input_path`; the `in_raster`
actually passed, `las_vegas_train_naip_hag.tif`, is the `stack_bands`
output, not a `download_file` return. -/
theorem claim_C8_counterexample :
    "las_vegas_train_naip.tif" ∈ downloadReturns (execTrace lidarNb false) ∧
    "las_vegas_train_naip.tif" ∉ dataArgs (execTrace lidarNb false) ∧
    "las_vegas_train_naip_hag.tif" ∈ dataArgs (execTrace lidarNb false) ∧
    "las_vegas_train_naip_hag.tif" ∉ downloadReturns (execTrace lidarNb false) := by
  decide

/-- C8 amended: every `download_file` return is a local path (never a
URL), and no URL is ever passed as `in_raster`, `in_class_data` or
`input_path`.  In the instance segmentation notebook these data arguments
are exactly the `download_file` returns; in the lidar notebook the
`in_class_data` is a `download_file` return while the raster inputs are
the local `stack_bands` output files, so every data argument there is a
download return or a stack output. -/
theorem claim_C8_amended (ex : Bool) :
    (downloadReturns (execTrace instanceNb ex)).all (fun s => !isUrl s) = true ∧
    (downloadReturns (execTrace lidarNb ex)).all (fun s => !isUrl s) = true ∧
    (dataArgs (execTrace instanceNb ex)).all (fun s => !isUrl s) = true ∧
    (dataArgs (execTrace lidarNb ex)).all (fun s => !isUrl s) = true ∧
    (dataArgs (execTrace instanceNb ex)).all
      (downloadReturns (execTrace instanceNb ex)).contains = true ∧
    (downloadReturns (execTrace instanceNb ex)).all
      (dataArgs (execTrace instanceNb ex)).contains = true ∧
    (dataArgs (execTrace lidarNb ex)).all
      (fun s => (downloadReturns (execTrace lidarNb ex)).contains s ||
        (stackOutputs (execTrace lidarNb ex)).contains s) = true ∧
    eventKw (execTrace lidarNb ex) "export_geotiff_tiles" "in_class_data" =
      some (.s "las_vegas_buildings_train.geojson") ∧
    "las_vegas_buildings_train.geojson" ∈ downloadReturns (execTrace lidarNb ex) := by
  cases ex <;> exact ⟨rfl, rfl, rfl, rfl, rfl, rfl, rfl, rfl, by decide⟩

/-- C9: the area filter `gdf_props[(gdf_props["area_m2"] > 50)]` — present
in both notebooks — keeps, in the pandas model, exactly the rows whose
`area_m2` exceeds 50 (so every kept row satisfies the bound and the result
is no longer than the input), and it binds the new frame to `gdf_filtered`
while the `gdf_props` binding still holds the unfiltered
`add_geometric_properties` result. -/
theorem claim_C9_area_filter :
    (∀ (α : Type) (gdf : List (ℚ × α)),
      (selectAreaGt 50 gdf).all (fun r => decide (50 < r.1)) = true ∧
      (selectAreaGt 50 gdf).length ≤ gdf.length) ∧
    hasFilterStmt instanceNb "gdf_filtered" "gdf_props" "area_m2" 50 = true ∧
    hasFilterStmt lidarNb "gdf_filtered" "gdf_props" "area_m2" 50 = true ∧
    ∀ ex : Bool,
      envAfter instanceNb ex "gdf_props" =
        some (.res "add_geometric_properties"
          [.res "orthogonalize"
            [.s "instance_segmentation_buildings/output/instance_segmentation_result.tif",
             .s "building_predictions.geojson"]]) ∧
      envAfter instanceNb ex "gdf_filtered" =
        some (.filtered "area_m2" 50
          (.res "add_geometric_properties"
            [.res "orthogonalize"
              [.s "instance_segmentation_buildings/output/instance_segmentation_result.tif",
               .s "building_predictions.geojson"]])) := by
  refine ⟨?_, rfl, rfl, ?_⟩
  · intro α gdf
    constructor
    · rw [List.all_eq_true]
      intro r hr
      exact (List.mem_filter.mp hr).2
    · exact List.length_filter_le _ _
  · intro ex
    cases ex <;> exact ⟨rfl, rfl⟩

/-- C10: the setup cell of the instance segmentation notebook (its first
ten statements) creates `models_dir` and `output_dir` with
`mkdir(parents=True, exist_ok=True)`; on every starting filesystem the
cell's filesystem effect is exactly those two `mkdir -p` actions, both
`mkdir` calls succeed whether or not the directories already exist, and
running the cell twice leaves the filesystem exactly as running it once
does. -/
theorem claim_C10_setup_idempotent :
    instanceNb.take 10 = instSetup ∧
    hasMkdirStmt instSetup "models_dir" true true = true ∧
    hasMkdirStmt instSetup "output_dir" true true = true ∧
    (∀ (g : FS) (p : String), mkdirExc true true g p = .ok (mkdirPE g p)) ∧
    ∀ fs : FS,
      (runOn instSetup fs).fs =
        mkdirPE (mkdirPE fs "instance_segmentation_buildings/models")
          "instance_segmentation_buildings/output" ∧
      (runOn instSetup (runOn instSetup fs).fs).fs = (runOn instSetup fs).fs ∧
      (mkdirExc true true fs "instance_segmentation_buildings/models").isOk = true ∧
      (mkdirExc true true (mkdirPE fs "instance_segmentation_buildings/models")
        "instance_segmentation_buildings/output").isOk = true := by
  refine ⟨rfl, rfl, rfl, fun g p => mkdirExc_true_eq g p, ?_⟩
  intro fs
  have hM : "instance_segmentation_buildings/models" ∈ (runOn instSetup fs).fs :=
    mem_mkdirPE _ _ _ (mem_mkdirPE_models fs)
  have hO : "instance_segmentation_buildings/output" ∈ (runOn instSetup fs).fs :=
    mem_mkdirPE_output (mkdirPE fs "instance_segmentation_buildings/models")
  refine ⟨rfl, ?_, ?_, ?_⟩
  · show mkdirPE (mkdirPE ((runOn instSetup fs).fs)
        "instance_segmentation_buildings/models")
        "instance_segmentation_buildings/output" = (runOn instSetup fs).fs
    rw [mkdirPE_eq_of_mem _ _ hM, mkdirPE_eq_of_mem _ _ hO]
  · rw [mkdirExc_true_eq]
    rfl
  · rw [mkdirExc_true_eq]
    rfl

end GeoaiNb
